import Mathlib

/-!
Verification of the claude-memory coordination system.

Shallow embedding of the core of the repository:
  * the memory store (src/store.ts): `createMemory`, `getMemory`,
    `queryMemories`, `markSuperseded`, the multi-index maintenance and the
    defensive index loading;
  * the task queue (the TaskManager source file): `createTask`, `claimTask`,
    `startTask`, `updateProgress`, `completeTask`, `failTask`,
    `getClaimableTasks`;
  * the instance registry loading (src/instances.ts): `loadRegistry`,
    `createEmptyRegistry`, `register`.

JavaScript `number` fields that only ever flow through comparisons and
defaulting (importance, confidence) are modelled as rationals; counters as
naturals; ISO-8601 timestamp strings as strings compared lexicographically,
exactly as the source compares them.  The filesystem directory of one store
is modelled as an association list from filename to parsed file content:
the source holds one YAML document per file, reads whole files and rewrites
whole files, so a directory state is exactly such a map plus listing order.
-/

namespace ClaudeMemory

/-! ## String primitives

The source relies on `String.prototype.includes`, `endsWith`, `toLowerCase`
and the built-in lexicographic `<` / `>` on strings.  They are re-implemented
here on character lists so that every use is executable and kernel-reducible.
-/

/-- Source `pat` is a leading block of `s` (character-list version of
JavaScript `startsWith`, used to build `includes`). -/
def charsStart : List Char → List Char → Bool
  | [], _ => true
  | _ :: _, [] => false
  | a :: as, b :: bs => a == b && charsStart as bs

/-- Source `pat` occurs contiguously inside `s`: JavaScript `s.includes(pat)`. -/
def charsHave (pat : List Char) : List Char → Bool
  | [] => charsStart pat []
  | c :: rest => charsStart pat (c :: rest) || charsHave pat rest

/-- JavaScript `s.includes(pat)`. -/
def strHas (s pat : String) : Bool := charsHave pat.data s.data

/-- JavaScript `s.endsWith(suffix)`. -/
def strEnds (s suf : String) : Bool := charsStart suf.data.reverse s.data.reverse

/-- JavaScript `s.toLowerCase()` (ASCII case folding, which is all the
source ever feeds it). -/
def strLower (s : String) : String := String.mk (s.data.map Char.toLower)

/-- Lexicographic strict order on character lists by code point, the order
JavaScript `<` uses on strings. -/
def charsLt : List Char → List Char → Bool
  | [], [] => false
  | [], _ :: _ => true
  | _ :: _, [] => false
  | a :: as, b :: bs => if a == b then charsLt as bs else decide (a.toNat < b.toNat)

/-- JavaScript `a < b` on strings. -/
def strLt (a b : String) : Bool := charsLt a.data b.data

/-! ## Data model (src/types.ts) -/

/-- Source `MemoryType` from src/types.ts. -/
inductive MemoryType
  | decision | event | fact | preference | context | conclusion
deriving DecidableEq

/-- Source `MemoryStatus` from src/types.ts. -/
inductive MemoryStatus
  | active | superseded | archived
deriving DecidableEq

/-- The string literal of a `MemoryType` as it appears in source text. -/
def memoryTypeStr : MemoryType → String
  | .decision => "decision"
  | .event => "event"
  | .fact => "fact"
  | .preference => "preference"
  | .context => "context"
  | .conclusion => "conclusion"

/-- Source `MemoryLinks` from src/types.ts. -/
structure MemoryLinks where
  supersedes : Option (List String) := none
  superseded_by : Option String := none
  derived_from : Option (List String) := none
  related_to : Option (List String) := none
deriving DecidableEq

/-- Source `MemoryContext` from src/types.ts. -/
structure MemoryContext where
  conversation_id : Option String := none
  triggered_by : Option String := none
  related_files : Option (List String) := none
  working_directory : Option String := none
deriving DecidableEq

/-- Source `Memory` from src/types.ts.  `importance`/`confidence` are JavaScript
numbers used only for defaulting and order comparison, modelled as `ℚ`;
`access_count` is a counter, modelled as `ℕ`. -/
structure Memory where
  id : String
  type : MemoryType
  status : MemoryStatus
  timestamp : String
  instance_id : String
  title : String
  summary : String
  details : Option String := none
  context : Option MemoryContext := none
  links : Option MemoryLinks := none
  tags : List String := []
  importance : ℚ
  confidence : ℚ
  expires_at : Option String := none
  last_accessed : Option String := none
  access_count : Nat
deriving DecidableEq

/-- Source `CreateMemoryInput` from src/types.ts. -/
structure CreateMemoryInput where
  type : MemoryType
  title : String
  summary : String
  details : Option String := none
  tags : Option (List String) := none
  importance : Option ℚ := none
  confidence : Option ℚ := none
  context : Option MemoryContext := none
  links : Option MemoryLinks := none
  expires_at : Option String := none
deriving DecidableEq

/-- The fixed-key `by_type` object of `MemoryIndex` (one list of ids per
member of the closed `MemoryType` enum, in the key order of
`createEmptyIndex`). -/
structure ByType where
  decision : List String := []
  event : List String := []
  fact : List String := []
  preference : List String := []
  context : List String := []
  conclusion : List String := []
deriving DecidableEq

/-- Read one key of `by_type`. -/
def ByType.get (bt : ByType) : MemoryType → List String
  | .decision => bt.decision
  | .event => bt.event
  | .fact => bt.fact
  | .preference => bt.preference
  | .context => bt.context
  | .conclusion => bt.conclusion

/-- Write one key of `by_type` (`index.by_type[t].push(id)` site). -/
def ByType.add (bt : ByType) : MemoryType → String → ByType
  | .decision, i => { bt with decision := bt.decision ++ [i] }
  | .event, i => { bt with event := bt.event ++ [i] }
  | .fact, i => { bt with fact := bt.fact ++ [i] }
  | .preference, i => { bt with preference := bt.preference ++ [i] }
  | .context, i => { bt with context := bt.context ++ [i] }
  | .conclusion, i => { bt with conclusion := bt.conclusion ++ [i] }

/-- The fixed-key `by_status` object of `MemoryIndex`. -/
structure ByStatus where
  active : List String := []
  superseded : List String := []
  archived : List String := []
deriving DecidableEq

/-- Read one key of `by_status`. -/
def ByStatus.get (bs : ByStatus) : MemoryStatus → List String
  | .active => bs.active
  | .superseded => bs.superseded
  | .archived => bs.archived

/-- Write one key of `by_status`. -/
def ByStatus.add (bs : ByStatus) : MemoryStatus → String → ByStatus
  | .active, i => { bs with active := bs.active ++ [i] }
  | .superseded, i => { bs with superseded := bs.superseded ++ [i] }
  | .archived, i => { bs with archived := bs.archived ++ [i] }

/-- Source `MemoryIndex` from src/types.ts, in the well-formed shape that
`createEmptyIndex` produces and all store operations maintain.  The open
`by_tag`/`by_file` objects are association lists in key-insertion order. -/
structure MemoryIndex where
  version : String
  last_updated : String
  by_type : ByType
  by_tag : List (String × List String) := []
  by_file : List (String × List String) := []
  by_status : ByStatus
  recent : List String := []
  high_importance : List String := []
deriving DecidableEq

/-- Source `TimelineEntry` from src/types.ts (the fields the store writes). -/
structure TimelineEntry where
  timestamp : String
  memory_id : Option String := none
  type : MemoryType
  summary : String
  supersedes : Option (List String) := none
deriving DecidableEq

/-- Source `Timeline` from src/types.ts. -/
structure Timeline where
  entries : List TimelineEntry := []
  last_updated : String
deriving DecidableEq

/-- Source `MemoryQuery` from src/types.ts.  `limit` is a JavaScript number; the
source only ever passes absent, zero or positive values, modelled as
`Option ℕ`.  `include_superseded` is read solely through the falsy test
`!query.include_superseded`, under which an absent flag and `false`
coincide, so it is modelled as `Bool` defaulting to `false`. -/
structure MemoryQuery where
  types : Option (List MemoryType) := none
  tags : Option (List String) := none
  files : Option (List String) := none
  search : Option String := none
  since : Option String := none
  before : Option String := none
  min_importance : Option ℚ := none
  status : Option (List MemoryStatus) := none
  limit : Option Nat := none
  include_superseded : Bool := false
deriving DecidableEq

/-! ## Store state (src/store.ts)

`MemoryStore` keeps the `memories/` directory (one YAML file per memory),
the index document and the timeline document.  A directory is an
association list `filename ↦ parsed content` in listing order; reading a
file yields the stored record, writing replaces it in place or appends. -/

/-- One store state: the `memories/` directory plus the two documents. -/
structure StoreState where
  files : List (String × Memory)
  index : MemoryIndex
  timeline : Timeline
deriving DecidableEq

/-- Read the parsed content of a named file of the directory. -/
def lookupFile (files : List (String × Memory)) (fname : String) : Option Memory :=
  (files.find? (fun p => p.1 == fname)).map (fun p => p.2)

/-- Source `fs.writeFile` into the directory: replace the existing entry in place,
or append a fresh file at the end of the listing. -/
def writeFileEntry (files : List (String × Memory)) (fname : String) (m : Memory) :
    List (String × Memory) :=
  if files.any (fun p => p.1 == fname) then
    files.map (fun p => if p.1 == fname then (fname, m) else p)
  else
    files ++ [(fname, m)]

/-- Source `generateFilename` (src/store.ts): the timestamp with `:` and `.`
replaced by `-`, cut to 19 characters, then type and id. -/
def generateFilename (timestamp : String) (type : MemoryType) (id : String) : String :=
  let dateStr := String.mk
    ((timestamp.data.map (fun c => if c == ':' || c == '.' then '-' else c)).take 19)
  let t := memoryTypeStr type
  dateStr ++ ("_") ++ t ++ ("_") ++ id ++ (".yaml")

/-- Source `createEmptyIndex` (src/store.ts): every enum key present with an empty
list. -/
def createEmptyIndex (now : String) : MemoryIndex :=
  { version := "1.0"
    last_updated := now
    by_type := {}
    by_tag := []
    by_file := []
    by_status := {}
    recent := []
    high_importance := [] }

/-- Source `saveIndex` (src/store.ts) stamps `last_updated` before persisting. -/
def saveIndex (index : MemoryIndex) (now : String) : MemoryIndex :=
  { index with last_updated := now }

/-- Source `findMemoryFile` (src/store.ts) fused with the read that follows it in
every caller: scan the directory listing for the first filename that
CONTAINS the requested id as a substring and ends in `.yaml`, and return
that filename with its parsed content. -/
def findMemoryFileEntry (files : List (String × Memory)) (id : String) :
    Option (String × Memory) :=
  files.find? (fun p => strHas p.1 id && strEnds p.1 (".yaml"))

/-- Source `getMemory` (src/store.ts): locate the file by substring match, bump
`access_count` and `last_accessed`, rewrite the file, return the updated
record.  No lookup hit means a `null` result and an untouched store. -/
def getMemory (st : StoreState) (id : String) (now : String) :
    Option Memory × StoreState :=
  match findMemoryFileEntry st.files id with
  | none => (none, st)
  | some (fname, m) =>
    let m' := { m with last_accessed := some now, access_count := m.access_count + 1 }
    (some m', { st with files := writeFileEntry st.files fname m' })

/-- Source `index.by_tag[k] = index.by_tag[k] || []; index.by_tag[k].push(v)` on an
open JavaScript object, as an association-list update. -/
def alistPush (l : List (String × List String)) (k v : String) :
    List (String × List String) :=
  if l.any (fun p => p.1 == k) then
    l.map (fun p => if p.1 == k then (k, p.2 ++ [v]) else p)
  else
    l ++ [(k, [v])]

/-- Source `index.by_tag[k] || []` read on an open JavaScript object. -/
def alistGet (l : List (String × List String)) (k : String) : List String :=
  ((l.find? (fun p => p.1 == k)).map (fun p => p.2)).getD []

/-- Source `addToIndex` (src/store.ts): push the id into `by_type`, each tag list,
each related-file list and `by_status`; unshift into `recent` capped at 50;
push into `high_importance` when importance ≥ 0.7.  The surrounding
`saveIndex` stamp is applied by the caller. -/
def addToIndex (index : MemoryIndex) (m : Memory) : MemoryIndex :=
  let i1 := { index with by_type := index.by_type.add m.type m.id }
  let i2 := { i1 with by_tag := m.tags.foldl (fun l t => alistPush l t m.id) i1.by_tag }
  let relFiles := ((m.context.map (fun c => c.related_files)).getD none).getD []
  let i3 := { i2 with by_file := relFiles.foldl (fun l f => alistPush l f m.id) i2.by_file }
  let i4 := { i3 with by_status := i3.by_status.add m.status m.id }
  let rec0 := m.id :: i4.recent
  let i5 := { i4 with recent := if rec0.length > 50 then rec0.take 50 else rec0 }
  if mkRat 7 10 ≤ m.importance then
    { i5 with high_importance := i5.high_importance ++ [m.id] }
  else i5

/-- Source `addToTimeline` (src/store.ts): append the entry, keep the last 500,
stamp `last_updated` (done in `saveTimeline`). -/
def addToTimeline (tl : Timeline) (entry : TimelineEntry) (now : String) : Timeline :=
  let es := tl.entries ++ [entry]
  let es := if es.length > 500 then es.drop (es.length - 500) else es
  { entries := es, last_updated := now }

/-- Source `removeFromIndexArrays` (src/store.ts): filter the id out of every
`by_type` list, every `by_status` list, `recent` and `high_importance`
(`by_tag` and `by_file` are NOT touched by the source). -/
def removeFromIndexArrays (index : MemoryIndex) (memoryId : String) : MemoryIndex :=
  { index with
    by_type :=
      { decision := index.by_type.decision.filter (fun i => i ≠ memoryId)
        event := index.by_type.event.filter (fun i => i ≠ memoryId)
        fact := index.by_type.fact.filter (fun i => i ≠ memoryId)
        preference := index.by_type.preference.filter (fun i => i ≠ memoryId)
        context := index.by_type.context.filter (fun i => i ≠ memoryId)
        conclusion := index.by_type.conclusion.filter (fun i => i ≠ memoryId) }
    by_status :=
      { active := index.by_status.active.filter (fun i => i ≠ memoryId)
        superseded := index.by_status.superseded.filter (fun i => i ≠ memoryId)
        archived := index.by_status.archived.filter (fun i => i ≠ memoryId) }
    recent := index.recent.filter (fun i => i ≠ memoryId)
    high_importance := index.high_importance.filter (fun i => i ≠ memoryId) }

/-- Source `markSuperseded` (src/store.ts): locate the old memory's file (no-op
when absent), set status `superseded` and `links.superseded_by`, rewrite
the file, then remove the id from every index array and re-add it under
`by_status.superseded`. -/
def markSuperseded (st : StoreState) (memoryId supersededBy now : String) : StoreState :=
  match findMemoryFileEntry st.files memoryId with
  | none => st
  | some (fname, m) =>
    let links0 := m.links.getD {}
    let m' := { m with
      status := MemoryStatus.superseded
      links := some { links0 with superseded_by := some supersededBy } }
    let i1 := removeFromIndexArrays st.index memoryId
    let i2 := { i1 with by_status :=
      { i1.by_status with superseded := i1.by_status.superseded ++ [memoryId] } }
    { st with
      files := writeFileEntry st.files fname m'
      index := saveIndex i2 now }

/-- Source `createMemory` (src/store.ts): build the record (importance defaulting
to 0.5 and confidence to 0.8 via `??`, with NO clamping in the source),
write the memory file, update the index and the timeline, then transition
each `links.supersedes` target via `markSuperseded`.  The random id and the
clock are parameters of the model. -/
def createMemory (st : StoreState) (input : CreateMemoryInput)
    (id timestamp instanceId : String) : Memory × StoreState :=
  let filename := generateFilename timestamp input.type id
  let memory : Memory :=
    { id := id
      type := input.type
      status := MemoryStatus.active
      timestamp := timestamp
      instance_id := instanceId
      title := input.title
      summary := input.summary
      details := input.details
      context := input.context
      links := input.links
      tags := input.tags.getD []
      importance := input.importance.getD (mkRat 5 10)
      confidence := input.confidence.getD (mkRat 8 10)
      expires_at := input.expires_at
      last_accessed := some timestamp
      access_count := 0 }
  let st1 := { st with files := writeFileEntry st.files filename memory }
  let st2 := { st1 with index := saveIndex (addToIndex st1.index memory) timestamp }
  let entry : TimelineEntry :=
    { timestamp := timestamp
      memory_id := some id
      type := input.type
      summary := input.title
      supersedes := ((input.links.map (fun l => l.supersedes)).getD none) }
  let st3 := { st2 with timeline := addToTimeline st2.timeline entry timestamp }
  let targets := (((input.links.map (fun l => l.supersedes)).getD none)).getD []
  let st4 := targets.foldl (fun s oldId => markSuperseded s oldId id timestamp) st3
  (memory, st4)

/-! ## queryMemories (src/store.ts) -/

/-- JavaScript `Set.add`: append if not already a member (first-insertion
order preserved). -/
def setAdd (acc : List String) (id : String) : List String :=
  if acc.contains id then acc else acc ++ [id]

/-- Add every element of a list into the set. -/
def setUnion (acc : List String) (ids : List String) : List String :=
  ids.foldl setAdd acc

/-- Source `Object.values(index.by_type).flat()`: all ids of all type lists, in the
fixed key order of `createEmptyIndex`. -/
def allByTypeIds (index : MemoryIndex) : List String :=
  index.by_type.decision ++ index.by_type.event ++ index.by_type.fact ++
    index.by_type.preference ++ index.by_type.context ++ index.by_type.conclusion

/-- The candidate-id set of `queryMemories` before the per-memory loop:
start from `by_type` (all keys, or the requested type set), then intersect
with the tag, file and status index lists.  With no explicit status filter
and `include_superseded` unset, intersect with `by_status.active`. -/
def queryCandidates (index : MemoryIndex) (q : MemoryQuery) : List String :=
  let c0 :=
    match q.types with
    | some (t :: ts) => (t :: ts).foldl (fun acc ty => setUnion acc (index.by_type.get ty)) []
    | _ => setUnion [] (allByTypeIds index)
  let c1 :=
    match q.tags with
    | some (t :: ts) =>
      let tagMatches := (t :: ts).foldl (fun acc tag => setUnion acc (alistGet index.by_tag tag)) []
      c0.filter (fun id => tagMatches.contains id)
    | _ => c0
  let c2 :=
    match q.files with
    | some (f :: fs) =>
      let fileMatches := (f :: fs).foldl (fun acc f => setUnion acc (alistGet index.by_file f)) []
      c1.filter (fun id => fileMatches.contains id)
    | _ => c1
  match q.status with
  | some (s :: ss) =>
    let statusMatches := (s :: ss).foldl (fun acc st => setUnion acc (index.by_status.get st)) []
    c2.filter (fun id => statusMatches.contains id)
  | _ =>
    if !q.include_superseded then
      let activeIds := index.by_status.active
      c2.filter (fun id => activeIds.contains id)
    else c2

/-- The per-memory filters of the `queryMemories` loop (timestamp window,
minimum importance with the source's falsy-zero guard, case-insensitive
substring search over title, summary, details and tags). -/
def queryKeep (q : MemoryQuery) (m : Memory) : Bool :=
  (match q.since with
   | some s => !(strLt m.timestamp s)
   | none => true) &&
  (match q.before with
   | some b => !(strLt b m.timestamp)
   | none => true) &&
  (match q.min_importance with
   | some mi => !(decide (mi ≠ 0) && decide (m.importance < mi))
   | none => true) &&
  (match q.search with
   | some s =>
     if s == "" then true
     else
       let sl := strLower s
       strHas (strLower m.title) sl || strHas (strLower m.summary) sl ||
         (match m.details with
          | some d => strHas (strLower d) sl
          | none => false) ||
         m.tags.any (fun t => strHas (strLower t) sl)
   | none => true)

/-- The load-and-filter loop: each candidate id goes through `getMemory`
(whose access-tracking rewrite threads the store state through the loop),
and the survivors of `queryKeep` are collected in iteration order. -/
def queryLoad (q : MemoryQuery) (now : String) :
    List String → StoreState → List Memory × StoreState
  | [], st => ([], st)
  | id :: rest, st =>
    match getMemory st id now with
    | (none, st1) => queryLoad q now rest st1
    | (some m, st1) =>
      let r := queryLoad q now rest st1
      (if queryKeep q m then m :: r.1 else r.1, r.2)

/-- Stable insertion of one memory into a newest-first list (the comparator
`b.timestamp.localeCompare(a.timestamp)` of the source's sort). -/
def insertByTsDesc (m : Memory) : List Memory → List Memory
  | [] => [m]
  | x :: xs => if strLt x.timestamp m.timestamp then m :: x :: xs else x :: insertByTsDesc m xs

/-- Sort newest-first by timestamp. -/
def sortByTsDesc : List Memory → List Memory
  | [] => []
  | m :: ms => insertByTsDesc m (sortByTsDesc ms)

/-- Source `queryMemories` without its final limit step: candidates, load+filter,
newest-first sort. -/
def queryMemoriesCore (st : StoreState) (q : MemoryQuery) (now : String) :
    List Memory × StoreState :=
  let r := queryLoad q now (queryCandidates st.index q) st
  (sortByTsDesc r.1, r.2)

/-- The final `if (query.limit) return memories.slice(0, query.limit)` of
`queryMemories`: an absent OR ZERO limit is falsy and returns everything. -/
def applyLimit (limit : Option Nat) (ms : List Memory) : List Memory :=
  match limit with
  | none => ms
  | some 0 => ms
  | some (n + 1) => ms.take (n + 1)

/-- Source `queryMemories` (src/store.ts). -/
def queryMemories (st : StoreState) (q : MemoryQuery) (now : String) :
    List Memory × StoreState :=
  let r := queryMemoriesCore st q now
  (applyLimit q.limit r.1, r.2)

/-! ## loadIndex on persisted documents (src/store.ts)

A persisted `index.json` need not have the `MemoryIndex` shape: a document
written by an older schema or edited by hand can miss top-level keys.  The
raw shape is therefore a record of OPTIONAL top-level members (`none` = key
absent), with the open objects kept as key/value lists exactly as parsed. -/

/-- The shape of a successfully parsed `index.json`, every top-level key
optional. -/
structure RawMemoryIndex where
  version : Option String := none
  last_updated : Option String := none
  by_type : Option (List (String × List String)) := none
  by_tag : Option (List (String × List String)) := none
  by_file : Option (List (String × List String)) := none
  by_status : Option (List (String × List String)) := none
  recent : Option (List String) := none
  high_importance : Option (List String) := none
deriving DecidableEq

/-- Result of `fs.readFile` + `JSON.parse` on the persisted index: either
some exception (missing file, unreadable, syntactically invalid JSON) or a
parsed document. -/
inductive ParsedDoc (α : Type)
  | err
  | ok (doc : α)
deriving DecidableEq

/-- Source `createEmptyIndex` as it serialises: every enum key present with an
empty list. -/
def createEmptyIndexRaw (now : String) : RawMemoryIndex :=
  { version := some "1.0"
    last_updated := some now
    by_type := some [("decision", []), ("event", []), ("fact", []),
      ("preference", []), ("context", []), ("conclusion", [])]
    by_tag := some []
    by_file := some []
    by_status := some [("active", []), ("superseded", []), ("archived", [])]
    recent := some []
    high_importance := some [] }

/-- Source `loadIndex` (src/store.ts): a read/parse failure falls back to
`createEmptyIndex`; a successfully parsed document is returned EXACTLY as
parsed — the source performs no merge with defaults. -/
def loadIndexModel (now : String) : ParsedDoc RawMemoryIndex → RawMemoryIndex
  | .err => createEmptyIndexRaw now
  | .ok doc => doc

/-- Structural completeness of a loaded index: the `by_type`, `by_status`,
`recent` and `high_importance` keys are all present. -/
def rawIndexComplete (r : RawMemoryIndex) : Bool :=
  r.by_type.isSome && r.by_status.isSome && r.recent.isSome && r.high_importance.isSome

/-! ## Instance registry loading (src/instances.ts) -/

/-- Source `InstanceStatus` from src/types.ts. -/
inductive InstStatus
  | active | idle | waiting | offline
deriving DecidableEq

/-- Source `session_info` block of an `Instance`. -/
structure SessionInfo where
  session_id : String
  tool : String
  started : String
deriving DecidableEq

/-- One `waiting_for` entry of an `Instance`. -/
structure WaitingFor where
  task_id : String
  since : String
deriving DecidableEq

/-- Source `Instance` from src/types.ts. -/
structure InstanceRec where
  instance_id : String
  machine : Option String := none
  capabilities : List String := []
  first_seen : String
  last_activity : String
  current_status : InstStatus
  working_on : Option String := none
  waiting_for : Option (List WaitingFor) := none
  files_touched : Option (List String) := none
  session_info : Option SessionInfo := none
deriving DecidableEq

/-- Source `ActivityEntry` from src/types.ts. -/
structure ActivityEntry where
  timestamp : String
  instance_id : String
  action : String
  details : Option String := none
deriving DecidableEq

/-- The `heartbeat` block of `InstanceRegistry`. -/
structure HeartbeatConfig where
  interval_seconds : Nat
  stale_after_seconds : Nat
  offline_after_seconds : Nat
deriving DecidableEq

/-- The shape of a successfully parsed registry document, every top-level
key optional (a document written by an older schema can miss keys). -/
structure RawRegistry where
  instances : Option (List (String × InstanceRec)) := none
  heartbeat : Option HeartbeatConfig := none
  recent_activity : Option (List ActivityEntry) := none
deriving DecidableEq

/-- Result of `fs.readFile` + `YAML.parse` on the registry document.
Unlike `JSON.parse`, `YAML.parse` of an EMPTY file does not throw: it
returns `null` (the newer instance-registry source in this repository says
so in its own comment, "Handle empty or invalid YAML (returns null)").
`nullDoc` is that outcome. -/
inductive YamlDoc (α : Type)
  | err
  | nullDoc
  | ok (doc : α)
deriving DecidableEq

/-- Source `createEmptyRegistry` (src/instances.ts). -/
def createEmptyRegistry : RawRegistry :=
  { instances := some []
    heartbeat := some ⟨60, 300, 900⟩
    recent_activity := some [] }

/-- Source `loadRegistry` (src/instances.ts): only a thrown read/parse error falls
back to `createEmptyRegistry`.  A `null` parse is cast and returned as the
registry (modelled as `none`), and a parsed document is returned exactly as
parsed, with no merge against defaults. -/
def loadRegistryModel : YamlDoc RawRegistry → Option RawRegistry
  | .err => some createEmptyRegistry
  | .nullDoc => none
  | .ok doc => some doc

/-- Structural completeness of a loaded registry: a registry object exists
and its instance map, heartbeat config and activity log are all present. -/
def registryComplete : Option RawRegistry → Bool
  | none => false
  | some r => r.instances.isSome && r.heartbeat.isSome && r.recent_activity.isSome

/-- Upsert into the registry's instance map (`registry.instances[id] = x`). -/
def regUpsert (l : List (String × InstanceRec)) (id : String) (inst : InstanceRec) :
    List (String × InstanceRec) :=
  if l.any (fun p => p.1 == id) then
    l.map (fun p => if p.1 == id then (id, inst) else p)
  else
    l ++ [(id, inst)]

/-- Source `register` (src/instances.ts) applied to a loaded registry: insert this
instance's entry, unshift a `registered` activity entry, trim the log to
100.  Property accesses on a `null` registry or on absent members raise a
`TypeError` in JavaScript, modelled as `Except.error`. -/
def registerModel (reg : Option RawRegistry) (inst : InstanceRec) (now : String) :
    Except String RawRegistry :=
  match reg with
  | none => Except.error ("TypeError: cannot read properties of null")
  | some r =>
    match r.instances, r.recent_activity with
    | some insts, some acts =>
      let caps := String.intercalate (", ") inst.capabilities
      let entry : ActivityEntry :=
        { timestamp := now
          instance_id := inst.instance_id
          action := "registered"
          details := some (("Instance registered with capabilities: ") ++ caps) }
      let acts1 := entry :: acts
      let acts2 := if acts1.length > 100 then acts1.take 100 else acts1
      Except.ok { r with
        instances := some (regUpsert insts inst.instance_id inst)
        recent_activity := some acts2 }
    | _, _ => Except.error ("TypeError: cannot read properties of undefined")

/-! ## Task queue (the TaskManager source file)

Each task lives in one YAML file named `<task id>.yaml` inside the
directory of its status bucket; `claimed` and `in_progress` tasks share the
`in_progress` bucket.  A bucket is modelled as an association list
`task id ↦ parsed task` in listing order. -/

/-- Source `TaskStatus` from src/types.ts. -/
inductive TaskStatus
  | pending | claimed | in_progress | completed | failed | cancelled
deriving DecidableEq

/-- The string literal of a `TaskStatus` as it appears in source text. -/
def taskStatusStr : TaskStatus → String
  | .pending => "pending"
  | .claimed => "claimed"
  | .in_progress => "in_progress"
  | .completed => "completed"
  | .failed => "failed"
  | .cancelled => "cancelled"

/-- Source `StatusHistoryEntry` from src/types.ts; the source field `by` (a Lean
keyword) is rendered `by_instance`. -/
structure StatusHistoryEntry where
  status : TaskStatus
  timestamp : String
  by_instance : String
  message : Option String := none
deriving DecidableEq

/-- The `target` block of a task. -/
structure TaskTarget where
  capabilities : Option (List String) := none
  specific_instance : Option String := none
deriving DecidableEq

/-- The `claimed_by` block of a task. -/
structure ClaimedBy where
  instance_id : String
  machine : Option String := none
  claimed_at : String
deriving DecidableEq

/-- The `error` block of a `TaskResult`. -/
structure TaskErrorInfo where
  code : String
  message : String
  details : Option String := none
deriving DecidableEq

/-- Source `TaskResult` from src/types.ts.  The opaque `output`/`artifacts`
payloads are never read or branched on by the task-queue source and are
omitted from the model. -/
structure TaskResult where
  success : Bool
  error : Option TaskErrorInfo := none
  generated_memories : Option (List String) := none
deriving DecidableEq

/-- One `progress_updates` entry. -/
structure ProgressUpdate where
  timestamp : String
  message : String
deriving DecidableEq

/-- Source `WaitHandle` from src/types.ts. -/
structure WaitHandle where
  requester : String
  callback_type : String
  timeout_at : Option String := none
  acknowledged : Bool
  acknowledged_at : Option String := none
deriving DecidableEq

/-- The `expected_output` block of a task. -/
structure ExpectedOutput where
  type : String
  format : String
deriving DecidableEq

/-- Source `Task` from src/types.ts (the `created_by` block inlined). -/
structure Task where
  id : String
  created_at : String
  created_by_instance : String
  created_by_machine : Option String := none
  type : String
  priority : String
  title : String
  description : String
  instructions : Option String := none
  expected_output : Option ExpectedOutput := none
  target : TaskTarget
  status : TaskStatus
  status_history : List StatusHistoryEntry
  claimed_by : Option ClaimedBy := none
  progress_updates : Option (List ProgressUpdate) := none
  completed_at : Option String := none
  result : Option TaskResult := none
  wait_handle : Option WaitHandle := none
  related_memories : Option (List String) := none
  files_involved : Option (List String) := none
deriving DecidableEq

/-- Source `CreateTaskInput` from src/types.ts.  `timeout_minutes` only feeds the
advisory `wait_handle.timeout_at` stamp, whose date arithmetic
(`Date.now() + m*60*1000`) is outside the model: the computed stamp is
passed in as `timeout_at`, already resolved, and no claim reads it. -/
structure CreateTaskInput where
  title : String
  description : String
  instructions : Option String := none
  priority : Option String := none
  target : Option TaskTarget := none
  expected_output : Option ExpectedOutput := none
  timeout_at : Option String := none
  related_memories : Option (List String) := none
  files_involved : Option (List String) := none
deriving DecidableEq

/-- The four bucket directories of the task queue. -/
structure TaskState where
  pending : List (String × Task) := []
  in_progress : List (String × Task) := []
  completed : List (String × Task) := []
  failed : List (String × Task) := []
deriving DecidableEq

/-- Read `<id>.yaml` in one bucket directory. -/
def lookupBucket (bucket : List (String × Task)) (taskId : String) : Option Task :=
  (bucket.find? (fun p => p.1 == taskId)).map (fun p => p.2)

/-- Source `saveTask` into one bucket: `fs.writeFile` of `<task.id>.yaml`,
replacing in place or appending a fresh file. -/
def saveBucket (bucket : List (String × Task)) (t : Task) : List (String × Task) :=
  if bucket.any (fun p => p.1 == t.id) then
    bucket.map (fun p => if p.1 == t.id then (t.id, t) else p)
  else
    bucket ++ [(t.id, t)]

/-- Source `deleteTask` from one bucket: `fs.unlink` of `<id>.yaml`, tolerant of a
missing file. -/
def deleteBucket (bucket : List (String × Task)) (taskId : String) : List (String × Task) :=
  bucket.filter (fun p => p.1 ≠ taskId)

/-- Source `findTask`: probe the bucket directories in the fixed order pending,
in_progress, completed, failed. -/
def findTask (ts : TaskState) (taskId : String) : Option Task :=
  match lookupBucket ts.pending taskId with
  | some t => some t
  | none =>
    match lookupBucket ts.in_progress taskId with
    | some t => some t
    | none =>
      match lookupBucket ts.completed taskId with
      | some t => some t
      | none => lookupBucket ts.failed taskId

/-- Source `createTask`: build the record (status `pending`, history seeded with
the pending entry, wait handle naming the creator) and save it into the
pending bucket.  The random id and the clock are parameters. -/
def createTask (ts : TaskState) (input : CreateTaskInput)
    (id now instanceId machine : String) : Task × TaskState :=
  let entry0 : StatusHistoryEntry :=
    { status := TaskStatus.pending, timestamp := now, by_instance := instanceId }
  let wh : WaitHandle :=
    { requester := instanceId, callback_type := "poll", timeout_at := input.timeout_at,
      acknowledged := false }
  let task : Task :=
    { id := id
      created_at := now
      created_by_instance := instanceId
      created_by_machine := some machine
      type := "request"
      priority := input.priority.getD ("normal")
      title := input.title
      description := input.description
      instructions := input.instructions
      expected_output := input.expected_output
      target := input.target.getD { capabilities := some [] }
      status := TaskStatus.pending
      status_history := [entry0]
      wait_handle := some wh
      related_memories := input.related_memories
      files_involved := input.files_involved }
  (task, { ts with pending := saveBucket ts.pending task })

/-- The error message of `claimTask` on a non-pending task, exactly as the
source interpolates it. -/
def notPendingMsg (taskId : String) (status : TaskStatus) : String :=
  ("Task ") ++ (taskId ++ ((" is not pending (status: ") ++ (taskStatusStr status ++ (")"))))

/-- Source `claimTask`: `null` when the task is nowhere on disk; a raised error
when it exists with a status other than `pending`; otherwise mark it
claimed, record `claimed_by`, delete the pending file and save the claimed
task into the in_progress bucket. -/
def claimTask (ts : TaskState) (taskId now instanceId machine : String) :
    Except String (Option Task × TaskState) :=
  match findTask ts taskId with
  | none => Except.ok (none, ts)
  | some task =>
    if task.status ≠ TaskStatus.pending then
      Except.error (notPendingMsg taskId task.status)
    else
      let entry : StatusHistoryEntry :=
        { status := TaskStatus.claimed, timestamp := now, by_instance := instanceId }
      let cb : ClaimedBy :=
        { instance_id := instanceId, machine := some machine, claimed_at := now }
      let task1 := { task with
        status := TaskStatus.claimed
        status_history := task.status_history ++ [entry]
        claimed_by := some cb }
      Except.ok (some task1, { ts with
        pending := deleteBucket ts.pending taskId
        in_progress := saveBucket ts.in_progress task1 })

/-- Source `startTask`: precondition status `claimed`, then status `in_progress`,
history appended, `progress_updates` initialised, saved in place in the
in_progress bucket. -/
def startTask (ts : TaskState) (taskId now instanceId : String) :
    Except String (Option Task × TaskState) :=
  match findTask ts taskId with
  | none => Except.ok (none, ts)
  | some task =>
    if task.status ≠ TaskStatus.claimed then
      let s := taskStatusStr task.status
      Except.error (("Task ") ++ taskId ++ (" is not claimed (status: ") ++ s ++ (")"))
    else
      let entry : StatusHistoryEntry :=
        { status := TaskStatus.in_progress, timestamp := now, by_instance := instanceId }
      let task1 := { task with
        status := TaskStatus.in_progress
        status_history := task.status_history ++ [entry]
        progress_updates := some [] }
      Except.ok (some task1, { ts with in_progress := saveBucket ts.in_progress task1 })

/-- Source `updateProgress`: precondition status `in_progress`, then append one
progress entry and save in place. -/
def updateProgress (ts : TaskState) (taskId message now : String) :
    Except String TaskState :=
  match findTask ts taskId with
  | none => Except.ok ts
  | some task =>
    if task.status ≠ TaskStatus.in_progress then
      Except.error (("Task ") ++ taskId ++ (" is not in progress"))
    else
      let upd : ProgressUpdate := { timestamp := now, message := message }
      let task1 := { task with
        progress_updates := some ((task.progress_updates.getD []) ++ [upd]) }
      Except.ok { ts with in_progress := saveBucket ts.in_progress task1 }

/-- Source `completeTask`: precondition status `claimed` or `in_progress`, then
status `completed`, result and `completed_at` recorded, the in_progress
file deleted and the task saved into the completed bucket. -/
def completeTask (ts : TaskState) (taskId : String) (result : TaskResult)
    (now instanceId : String) : Except String (Option Task × TaskState) :=
  match findTask ts taskId with
  | none => Except.ok (none, ts)
  | some task =>
    if task.status ≠ TaskStatus.in_progress && task.status ≠ TaskStatus.claimed then
      let s := taskStatusStr task.status
      Except.error (("Task ") ++ taskId ++ (" cannot be completed (status: ") ++ s ++ (")"))
    else
      let entry : StatusHistoryEntry :=
        { status := TaskStatus.completed, timestamp := now, by_instance := instanceId }
      let task1 := { task with
        status := TaskStatus.completed
        status_history := task.status_history ++ [entry]
        completed_at := some now
        result := some result }
      Except.ok (some task1, { ts with
        in_progress := deleteBucket ts.in_progress taskId
        completed := saveBucket ts.completed task1 })

/-- Source `failTask`: no precondition on the current status.  After appending the
`failed` history entry the source inspects
`status_history[status_history.length - 2]` — the status BEFORE the one
just pushed — and deletes the in_progress file only when that previous
status was `in_progress` or `claimed`; the failed task is then saved into
the failed bucket. -/
def failTask (ts : TaskState) (taskId : String) (error : TaskErrorInfo)
    (now instanceId : String) : Option Task × TaskState :=
  match findTask ts taskId with
  | none => (none, ts)
  | some task =>
    let entry : StatusHistoryEntry :=
      { status := TaskStatus.failed, timestamp := now, by_instance := instanceId,
        message := some error.message }
    let res : TaskResult := { success := false, error := some error }
    let task1 := { task with
      status := TaskStatus.failed
      status_history := task.status_history ++ [entry]
      completed_at := some now
      result := some res }
    let hist := task1.status_history
    let idx : Int := (hist.length : Int) - 2
    let currentStatus : Option TaskStatus :=
      if idx < 0 then none else (hist.get? idx.toNat).map (fun e => e.status)
    let ts1 :=
      if currentStatus == some TaskStatus.in_progress ||
          currentStatus == some TaskStatus.claimed then
        { ts with in_progress := deleteBucket ts.in_progress taskId }
      else ts
    (some task1, { ts1 with failed := saveBucket ts1.failed task1 })

/-- Source `getTasksInStatus('pending')`: the parsed contents of the pending
bucket in listing order. -/
def pendingTasks (ts : TaskState) : List Task :=
  ts.pending.map (fun p => p.2)

/-- The filter of `getClaimableTasks`: an absent or empty required
capability list admits everyone; otherwise a truthy (non-empty-string)
`specific_instance` admits exactly that instance; otherwise the instance's
capability list must cover every required capability. -/
def claimFilter (instanceId : String) (capabilities : List String) (t : Task) : Bool :=
  match t.target.capabilities with
  | none => true
  | some [] => true
  | some (c :: cs) =>
    match t.target.specific_instance with
    | some s =>
      if s == "" then (c :: cs).all (fun cap => capabilities.contains cap)
      else s == instanceId
    | none => (c :: cs).all (fun cap => capabilities.contains cap)

/-- Source `getClaimableTasks(capabilities)`: the pending tasks that pass
`claimFilter`. -/
def getClaimableTasks (ts : TaskState) (instanceId : String)
    (capabilities : List String) : List Task :=
  (pendingTasks ts).filter (claimFilter instanceId capabilities)

/-- How many bucket directories hold a file for this task id. -/
def bucketsHolding (ts : TaskState) (taskId : String) : Nat :=
  (if ts.pending.any (fun p => p.1 == taskId) then 1 else 0) +
  (if ts.in_progress.any (fun p => p.1 == taskId) then 1 else 0) +
  (if ts.completed.any (fun p => p.1 == taskId) then 1 else 0) +
  (if ts.failed.any (fun p => p.1 == taskId) then 1 else 0)

/-- Every task id on disk. -/
def allTaskIds (ts : TaskState) : List String :=
  (ts.pending ++ ts.in_progress ++ ts.completed ++ ts.failed).map (fun p => p.1)

/-- The bucket/status agreement invariant: every task file lives in exactly
one status bucket, and the `status` field stored in each file agrees with
its bucket (`claimed` and `in_progress` both belong to the in_progress
bucket). -/
def taskInvariant (ts : TaskState) : Bool :=
  (allTaskIds ts).all (fun id => bucketsHolding ts id == 1) &&
  ts.pending.all (fun p => p.2.status == TaskStatus.pending) &&
  ts.in_progress.all (fun p => p.2.status == TaskStatus.claimed ||
    p.2.status == TaskStatus.in_progress) &&
  ts.completed.all (fun p => p.2.status == TaskStatus.completed) &&
  ts.failed.all (fun p => p.2.status == TaskStatus.failed)

/-! ## Specification-side predicates and expected-value helpers -/

/-- The task declares no required capabilities (absent or empty list). -/
def hasNoRequiredCaps (t : Task) : Prop :=
  t.target.capabilities = none ∨ t.target.capabilities = some []

instance (t : Task) : Decidable (hasNoRequiredCaps t) := by
  unfold hasNoRequiredCaps; infer_instance

/-- The specification's reading of claimability, written from the spec's
words: three independently sufficient disjuncts — open to anyone (no
required capabilities AND no specific target), or named as the specific
target, or capability superset. -/
def claimableSpecC3 (instanceId : String) (capabilities : List String) (t : Task) : Prop :=
  (hasNoRequiredCaps t ∧ t.target.specific_instance = none)
  ∨ t.target.specific_instance = some instanceId
  ∨ (∀ c ∈ t.target.capabilities.getD [], c ∈ capabilities)

instance (instanceId : String) (capabilities : List String) (t : Task) :
    Decidable (claimableSpecC3 instanceId capabilities t) := by
  unfold claimableSpecC3; infer_instance

/-- JavaScript truthiness of `task.target.specific_instance`: present and
not the empty string. -/
def specificTruthy (t : Task) : Bool :=
  !((t.target.specific_instance.getD ("")) == "")

/-- Claimability as the filter actually behaves: no required capabilities
admits anyone (even with a specific target named); otherwise a truthy
specific target admits exactly that instance, bypassing AND OVERRIDING the
capability check; otherwise capability superset. -/
def claimableAmendedC3 (instanceId : String) (capabilities : List String) (t : Task) : Prop :=
  hasNoRequiredCaps t
  ∨ (¬hasNoRequiredCaps t ∧ specificTruthy t = true ∧
      t.target.specific_instance = some instanceId)
  ∨ (¬hasNoRequiredCaps t ∧ specificTruthy t = false ∧
      ∀ c ∈ t.target.capabilities.getD [], c ∈ capabilities)

instance (instanceId : String) (capabilities : List String) (t : Task) :
    Decidable (claimableAmendedC3 instanceId capabilities t) := by
  unfold claimableAmendedC3; infer_instance

/-- The claimed version of a pending task as `claimTask` constructs it. -/
def claimedVersion (task : Task) (now instanceId machine : String) : Task :=
  let entry : StatusHistoryEntry :=
    { status := TaskStatus.claimed, timestamp := now, by_instance := instanceId }
  let cb : ClaimedBy :=
    { instance_id := instanceId, machine := some machine, claimed_at := now }
  { task with
    status := TaskStatus.claimed
    status_history := task.status_history ++ [entry]
    claimed_by := some cb }

/-- The task-queue state after a successful claim: pending file deleted,
claimed task saved into the in_progress bucket. -/
def claimedState (ts : TaskState) (taskId : String) (task : Task)
    (now instanceId machine : String) : TaskState :=
  { ts with
    pending := deleteBucket ts.pending taskId
    in_progress := saveBucket ts.in_progress (claimedVersion task now instanceId machine) }

/-- The superseded version of a memory as `markSuperseded` rewrites it. -/
def supersededVersion (m : Memory) (supersededBy : String) : Memory :=
  let links0 := m.links.getD {}
  { m with
    status := MemoryStatus.superseded
    links := some { links0 with superseded_by := some supersededBy } }

/-- The access-tracked version of a memory as `getMemory` rewrites it. -/
def accessedVersion (m : Memory) (now : String) : Memory :=
  { m with last_accessed := some now, access_count := m.access_count + 1 }

/-! ## Concrete states used by witnesses, counterexamples and bug
evaluations -/

/-- A store with nothing in it (the state `init` leaves behind). -/
def emptyStore : StoreState :=
  { files := []
    index := createEmptyIndex ("2025-01-01T00:00:00.000Z")
    timeline := { entries := [], last_updated := ("2025-01-01T00:00:00.000Z") } }

/-- A task queue with nothing in it. -/
def emptyTasks : TaskState := {}

/-- C1 witness scenario: one freshly created (pending) task. -/
def c1input : CreateTaskInput := { title := "w", description := "d" }

/-- The creation step of the C1 scenario. -/
def c1create : Task × TaskState :=
  createTask emptyTasks c1input ("task_c1") ("2025-01-01T00:00:00.000Z") ("creator") ("m0")

/-- The C1 queue state: `task_c1` pending. -/
def c1state : TaskState := c1create.2

/-- C2 failing input: a task that is created and then immediately failed
while still pending. -/
def c2input : CreateTaskInput := { title := "Task to fail", description := "d" }

/-- The creation step of the C2 scenario. -/
def c2create : Task × TaskState :=
  createTask emptyTasks c2input ("task_c2") ("2025-01-01T00:00:00.000Z") ("creator") ("m0")

/-- The C2 queue state before the fail: `task_c2` pending. -/
def c2state0 : TaskState := c2create.2

/-- Source `failTask` applied to the still-pending `task_c2`. -/
def c2fail : Option Task × TaskState :=
  failTask c2state0 ("task_c2") { code := "E", message := "boom" }
    ("2025-01-01T01:00:00.000Z") ("worker")

/-- The C2 queue state after the fail. -/
def c2state1 : TaskState := c2fail.2

/-- C3 counterexample task: requires capability `x` AND names another
specific instance. -/
def c3task : Task :=
  { id := "task_c3"
    created_at := "2025-01-01T00:00:00.000Z"
    created_by_instance := "creator"
    created_by_machine := some ("m0")
    type := "request"
    priority := "normal"
    title := "t"
    description := "d"
    target := { capabilities := some [("x")], specific_instance := some ("other") }
    status := TaskStatus.pending
    status_history := [⟨TaskStatus.pending, "2025-01-01T00:00:00.000Z", "creator", none⟩] }

/-- The C3 counterexample queue: only `c3task`, pending. -/
def c3state : TaskState := { pending := [(("task_c3"), c3task)] }

/-- C3 witness task: requires capabilities `x` and `y`, no specific
target. -/
def c3wtask : Task :=
  { c3task with
    id := "task_c3w"
    target := { capabilities := some [("x"), ("y")] } }

/-- The C3 witness queue: only `c3wtask`, pending. -/
def c3wstate : TaskState := { pending := [(("task_c3w"), c3wtask)] }

/-- C4 failing input: importance 2 and confidence −1, both outside
`[0,1]`. -/
def c4input : CreateMemoryInput :=
  { type := MemoryType.fact
    title := "t"
    summary := "s"
    importance := some 2
    confidence := some (-1) }

/-- Source `createMemory` on the out-of-range C4 input. -/
def c4res : Memory × StoreState :=
  createMemory emptyStore c4input ("aaaabbbbcccc") ("2025-01-01T00:00:00.000Z") ("inst1")

/-- C5 witness memory. -/
def c5mem : Memory :=
  { id := "aaaaaaaaaaaa"
    type := MemoryType.fact
    status := MemoryStatus.active
    timestamp := "2025-01-01T00:00:00.000Z"
    instance_id := "inst1"
    title := "Original"
    summary := "s"
    tags := [("infra")]
    importance := mkRat 9 10
    confidence := mkRat 8 10
    last_accessed := some ("2025-01-01T00:00:00.000Z")
    access_count := 0 }

/-- The C5 witness filename for `c5mem`. -/
def c5fname : String := "2025-01-01T00-00-00_fact_aaaaaaaaaaaa.yaml"

/-- The C5 witness store: one active, recent, high-importance memory. -/
def c5store : StoreState :=
  { files := [((c5fname : String), c5mem)]
    index :=
      { version := "1.0"
        last_updated := "2025-01-01T00:00:00.000Z"
        by_type := { fact := [("aaaaaaaaaaaa")] }
        by_tag := [(("infra"), [("aaaaaaaaaaaa")])]
        by_status := { active := [("aaaaaaaaaaaa")] }
        recent := [("aaaaaaaaaaaa")]
        high_importance := [("aaaaaaaaaaaa")] }
    timeline := { entries := [], last_updated := "2025-01-01T00:00:00.000Z" } }

/-- C6 failing input, first step: an original memory. -/
def c6inA : CreateMemoryInput :=
  { type := MemoryType.fact, title := "Original", summary := "Will be superseded" }

/-- C6 first creation. -/
def c6step1 : Memory × StoreState :=
  createMemory emptyStore c6inA ("aaaaaaaaaaaa") ("2025-01-01T00:00:00.000Z") ("inst1")

/-- C6 failing input, second step: a replacement superseding the
original. -/
def c6inB : CreateMemoryInput :=
  { type := MemoryType.decision
    title := "Replacement"
    summary := "Supersedes original"
    links := some { supersedes := some [("aaaaaaaaaaaa")] } }

/-- C6 second creation (which marks the original superseded). -/
def c6step2 : Memory × StoreState :=
  createMemory c6step1.2 c6inB ("bbbbbbbbbbbb") ("2025-01-02T00:00:00.000Z") ("inst1")

/-- The C6 store: one active and one superseded memory. -/
def c6state : StoreState := c6step2.2

/-- The C6 query: no filters except `include_superseded: true`. -/
def c6query : List Memory × StoreState :=
  queryMemories c6state { include_superseded := true } ("2025-01-03T00:00:00.000Z")

/-- The C7 witness query: positive limit 2. -/
def c7query : MemoryQuery := { limit := some 2 }

/-- C8 failing input: a registry document that parses but misses the
`heartbeat` and `recent_activity` keys. -/
def c8missing : RawRegistry := { instances := some [] }

/-- The instance whose registration hits the C8 failure. -/
def c8inst : InstanceRec :=
  { instance_id := "inst_a"
    machine := some ("host")
    capabilities := [("coding")]
    first_seen := "2025-01-01T00:00:00.000Z"
    last_activity := "2025-01-01T00:00:00.000Z"
    current_status := InstStatus.active
    session_info := some ⟨"s1", "cli", "2025-01-01T00:00:00.000Z"⟩ }

/-- C9 failing input: a persisted index missing `by_file`, `by_status`,
`recent` and `high_importance` (the partial document of the repository's
own index-merging test). -/
def c9partial : RawMemoryIndex :=
  { version := some "1.0"
    last_updated := some ("2025-01-01T00:00:00.000Z")
    by_type := some [(("decision"), [("mem1")])]
    by_tag := some [(("tag1"), [("mem1")])] }

/-- C10 memory whose id has the requested id as a proper substring. -/
def c10mem : Memory :=
  { id := "abc123def456"
    type := MemoryType.fact
    status := MemoryStatus.active
    timestamp := "2025-01-01T00:00:00.000Z"
    instance_id := "inst1"
    title := "t"
    summary := "s"
    importance := mkRat 5 10
    confidence := mkRat 8 10
    last_accessed := some ("2025-01-01T00:00:00.000Z")
    access_count := 0 }

/-- The C10 store: just `c10mem` on disk. -/
def c10state : StoreState :=
  { files := [(("2025-01-01T00-00-00_fact_abc123def456.yaml"), c10mem)]
    index := createEmptyIndex ("2025-01-01T00:00:00.000Z")
    timeline := { entries := [], last_updated := "2025-01-01T00:00:00.000Z" } }


/-! ## Helper lemmas -/

/-- Deleting a task file removes every lookup hit for that id. -/
theorem lookupBucket_deleteBucket (b : List (String × Task)) (id : String) :
    lookupBucket (deleteBucket b id) id = none := by
  induction b with
  | nil => rfl
  | cons p rest ih =>
    by_cases h : p.1 = id
    · simpa [deleteBucket, List.filter_cons, h] using ih
    · simp [deleteBucket, List.filter_cons, h, lookupBucket, List.find?_cons]

theorem lookupBucket_saveBucket (b : List (String × Task)) (t : Task) :
    lookupBucket (saveBucket b t) t.id = some t := by
  unfold saveBucket
  by_cases h : b.any (fun p => p.1 == t.id)
  · simp only [h, if_true]
    induction b with
    | nil => simp at h
    | cons p rest ih =>
      by_cases hp : p.1 = t.id
      · simp [lookupBucket, List.find?_cons, hp]
      · have hrest : rest.any (fun p => p.1 == t.id) := by
          simp [List.any_cons, hp] at h
          simpa using h
        simpa [lookupBucket, List.find?_cons, hp] using ih hrest
  · simp only [h, if_false]
    induction b with
    | nil => simp [lookupBucket, List.find?_cons]
    | cons p rest ih =>
      have hp : ¬ p.1 = t.id := by
        intro he; exact h (by simp [List.any_cons, he])
      have hrest : ¬ rest.any (fun p => p.1 == t.id) := by
        intro he; exact h (by simp [List.any_cons, he])
      simpa [lookupBucket, List.find?_cons, hp] using ih hrest

theorem lookupFile_writeFileEntry (files : List (String × Memory)) (fname : String)
    (m : Memory) : lookupFile (writeFileEntry files fname m) fname = some m := by
  unfold writeFileEntry
  by_cases h : files.any (fun p => p.1 == fname)
  · simp only [h, if_true]
    induction files with
    | nil => simp at h
    | cons p rest ih =>
      by_cases hp : p.1 = fname
      · simp [lookupFile, List.find?_cons, hp]
      · have hrest : rest.any (fun p => p.1 == fname) := by
          simp [List.any_cons, hp] at h
          simpa using h
        simpa [lookupFile, List.find?_cons, hp] using ih hrest
  · simp only [h, if_false]
    induction files with
    | nil => simp [lookupFile, List.find?_cons]
    | cons p rest ih =>
      have hp : ¬ p.1 = fname := by
        intro he; exact h (by simp [List.any_cons, he])
      have hrest : ¬ rest.any (fun p => p.1 == fname) := by
        intro he; exact h (by simp [List.any_cons, he])
      simpa [lookupFile, List.find?_cons, hp] using ih hrest

/-- Concatenation and containment facts about the string primitives. -/
theorem strData_append (a b : String) : (a ++ b).data = a.data ++ b.data := by
  cases a; cases b; rfl

theorem charsStart_self_append (p suf : List Char) : charsStart p (p ++ suf) = true := by
  induction p with
  | nil => rfl
  | cons c cs ih => simp [charsStart, ih]

theorem charsHave_of_start (p l : List Char) (h : charsStart p l = true) :
    charsHave p l = true := by
  cases l with
  | nil => simpa [charsHave] using h
  | cons c rest => simp [charsHave, h]

theorem charsHave_prepend (a p l : List Char) (h : charsHave p l = true) :
    charsHave p (a ++ l) = true := by
  induction a with
  | nil => simpa using h
  | cons c cs ih => simp [charsHave, ih]

theorem strHas_here (b c : String) : strHas (b ++ c) b = true := by
  unfold strHas
  rw [strData_append]
  exact charsHave_of_start _ _ (charsStart_self_append _ _)

theorem strHas_after (a l pat : String) (h : strHas l pat = true) :
    strHas (a ++ l) pat = true := by
  unfold strHas at *
  rw [strData_append]
  exact charsHave_prepend _ _ _ h

theorem strHas_notPendingMsg_id (taskId : String) (status : TaskStatus) :
    strHas (notPendingMsg taskId status) taskId = true := by
  unfold notPendingMsg
  exact strHas_after _ _ _ (strHas_here _ _)

theorem strHas_notPendingMsg_status (taskId : String) (status : TaskStatus) :
    strHas (notPendingMsg taskId status) (taskStatusStr status) = true := by
  unfold notPendingMsg
  exact strHas_after _ _ _ (strHas_after _ _ _ (strHas_after _ _ _ (strHas_here _ _)))

/-! ## Claim theorems -/

/-- Claim C1: for every task id, `claimTask` returns null (not an error)
when no task with that id exists anywhere on disk; when the task exists
with a status other than pending it raises a reportable error whose
message contains the task id and the actual status; and when the task is
pending it returns the task with status claimed and `claimed_by` set, so
that a second `claimTask` on the same id raises the precondition error. -/
theorem claimTask_C1 (ts : TaskState) (taskId now instanceId machine : String) :
    (findTask ts taskId = none →
      claimTask ts taskId now instanceId machine = Except.ok (none, ts)) ∧
    (∀ task, findTask ts taskId = some task → task.status ≠ TaskStatus.pending →
      claimTask ts taskId now instanceId machine =
        Except.error (notPendingMsg taskId task.status) ∧
      strHas (notPendingMsg taskId task.status) taskId = true ∧
      strHas (notPendingMsg taskId task.status) (taskStatusStr task.status) = true) ∧
    (∀ task, findTask ts taskId = some task → task.status = TaskStatus.pending →
      task.id = taskId →
      claimTask ts taskId now instanceId machine =
        Except.ok (some (claimedVersion task now instanceId machine),
          claimedState ts taskId task now instanceId machine) ∧
      (claimedVersion task now instanceId machine).status = TaskStatus.claimed ∧
      (claimedVersion task now instanceId machine).claimed_by =
        some { instance_id := instanceId, machine := some machine, claimed_at := now } ∧
      claimTask (claimedState ts taskId task now instanceId machine) taskId now instanceId
          machine = Except.error (notPendingMsg taskId TaskStatus.claimed)) := by
  refine ⟨?_, ?_, ?_⟩
  · intro h
    simp [claimTask, h]
  · intro task hf hs
    refine ⟨?_, strHas_notPendingMsg_id _ _, strHas_notPendingMsg_status _ _⟩
    simp [claimTask, hf, hs]
  · intro task hf hs hid
    have h1 : claimTask ts taskId now instanceId machine =
        Except.ok (some (claimedVersion task now instanceId machine),
          claimedState ts taskId task now instanceId machine) := by
      simp [claimTask, hf, hs, claimedVersion, claimedState]
    refine ⟨h1, rfl, rfl, ?_⟩
    have hid2 : (claimedVersion task now instanceId machine).id = taskId := by
      simpa [claimedVersion] using hid
    have hfind2 : findTask (claimedState ts taskId task now instanceId machine) taskId =
        some (claimedVersion task now instanceId machine) := by
      unfold findTask claimedState
      rw [lookupBucket_deleteBucket]
      have hsv := lookupBucket_saveBucket ts.in_progress
        (claimedVersion task now instanceId machine)
      rw [hid2] at hsv
      simp [hsv]
    simp [claimTask, hfind2, claimedVersion]

/-- Claim C2 (code-bug evaluation): after the completed operation sequence
`createTask; failTask` on a still-pending task, the task's file exists in
BOTH the pending and the failed bucket — `failTask` only deletes the old
file when the previous status was claimed or in_progress — so the
exactly-one-bucket invariant, which holds before the fail, is violated
after it. -/
theorem failTask_bucket_bug_C2 :
    taskInvariant c2state0 = true ∧
    (c2fail.1).isSome = true ∧
    c2state1.pending.any (fun p => p.1 == ("task_c2")) = true ∧
    c2state1.failed.any (fun p => p.1 == ("task_c2")) = true ∧
    bucketsHolding c2state1 ("task_c2") = 2 ∧
    taskInvariant c2state1 = false := by
  refine ⟨by decide, by decide, by decide, by decide, by decide, by decide⟩

/-- Claim C6 (code-bug evaluation): after creating a memory and
superseding it, a query with `include_superseded: true` does NOT return
the superseded memory — `markSuperseded` removed its id from every
`by_type` list and `queryMemories` draws its candidates exclusively from
`by_type` — while the claim (and the repository's own test) requires both
memories in the result.  The default no-filter query returning only the
active memory is also evaluated. -/
theorem query_superseded_bug_C6 :
    ((lookupFile c6state.files ("2025-01-01T00-00-00_fact_aaaaaaaaaaaa.yaml")).map
      Memory.status = some MemoryStatus.superseded) ∧
    (c6query.1.map Memory.id = [("bbbbbbbbbbbb")]) ∧
    ¬ (("aaaaaaaaaaaa") ∈ c6query.1.map Memory.id) ∧
    ((queryMemories c6state {} ("2025-01-03T00:00:00.000Z")).1.map Memory.id =
      [("bbbbbbbbbbbb")]) := by
  refine ⟨by decide, by decide, by decide, by decide⟩

/-- Claim C8 (code-bug evaluation): loading the registry document is NOT
total.  An empty file parses to YAML null, which `loadRegistry` returns
as the registry instead of falling back to defaults, so `register` then
raises a TypeError; a parsed document missing the newer fields is
likewise returned without merging, is structurally incomplete, and makes
`register` raise.  Only a thrown read/parse error produces the
structurally complete default registry. -/
theorem registry_load_bug_C8 :
    loadRegistryModel (YamlDoc.nullDoc) = none ∧
    registryComplete (loadRegistryModel (YamlDoc.nullDoc)) = false ∧
    (registerModel (loadRegistryModel (YamlDoc.nullDoc)) c8inst
      ("2025-01-01T00:01:00.000Z")).toOption.isSome = false ∧
    registryComplete (loadRegistryModel (YamlDoc.ok c8missing)) = false ∧
    (registerModel (loadRegistryModel (YamlDoc.ok c8missing)) c8inst
      ("2025-01-01T00:01:00.000Z")).toOption.isSome = false ∧
    registryComplete (loadRegistryModel (YamlDoc.err)) = true := by
  refine ⟨rfl, rfl, rfl, rfl, rfl, rfl⟩

/-- Claim C9 (code-bug evaluation): `loadIndex` performs NO shallow merge.
A persisted index that parses but misses the `by_status`, `recent` and
`high_importance` keys (the partial document of the repository's own
index-merging test) is returned exactly as parsed and is structurally
incomplete; only the read/parse-failure path yields complete defaults. -/
theorem loadIndex_no_merge_bug_C9 :
    loadIndexModel ("2025-01-02T00:00:00.000Z") (ParsedDoc.ok c9partial) = c9partial ∧
    (loadIndexModel ("2025-01-02T00:00:00.000Z") (ParsedDoc.ok c9partial)).by_status = none ∧
    rawIndexComplete (loadIndexModel ("2025-01-02T00:00:00.000Z")
      (ParsedDoc.ok c9partial)) = false ∧
    rawIndexComplete (loadIndexModel ("2025-01-02T00:00:00.000Z") (ParsedDoc.err)) = true := by
  refine ⟨rfl, rfl, rfl, rfl⟩

/-- Claim C3 counterexample: a pending task requiring capability `x` that
names ANOTHER instance as `specific_instance` is not claimable by an
instance that holds capability `x`, although the claim's third
independently sufficient condition (capability superset) says it is: in
the code, a named specific instance overrides the capability check. -/
theorem getClaimable_C3_counterexample :
    ¬ (c3task ∈ getClaimableTasks c3state ("me") [("x")] ↔
       (c3task ∈ pendingTasks c3state ∧ claimableSpecC3 ("me") [("x")] c3task)) := by
  decide

/-- Claim C4 counterexample: `createMemory` performs no clamping — an
input importance of 2 and confidence of −1 are stored as given, outside
the interval claimed. -/
theorem createMemory_C4_counterexample :
    c4res.1.importance = 2 ∧ c4res.1.confidence = -1 ∧
    (lookupFile c4res.2.files ("2025-01-01T00-00-00_fact_aaaabbbbcccc.yaml") = some c4res.1) ∧
    ¬ ((0 ≤ c4res.1.importance ∧ c4res.1.importance ≤ 1) ∧
       (0 ≤ c4res.1.confidence ∧ c4res.1.confidence ≤ 1)) := by
  refine ⟨by decide, by decide, by decide, by decide⟩

/-- Claim C10 counterexample: `getMemory` applied to the id `abc` returns
the memory whose id is `abc123def456` — file lookup is a substring match
over filenames with no id-format validation, so the returned record's id
need not equal the requested id. -/
theorem getMemory_C10_counterexample :
    ((getMemory c10state ("abc") ("2025-02-02T00:00:00.000Z")).1).map Memory.id =
      some ("abc123def456") ∧
    (("abc123def456" : String) ≠ ("abc")) ∧
    ((getMemory c10state ("abc") ("2025-02-02T00:00:00.000Z")).1).isSome = true := by
  refine ⟨by decide, by decide, by decide⟩

/-- The claimability filter of `getClaimableTasks`, characterised as a
three-branch cascade. -/
theorem claimFilter_iff (instanceId : String) (capabilities : List String) (t : Task) :
    claimFilter instanceId capabilities t = true ↔
      claimableAmendedC3 instanceId capabilities t := by
  unfold claimFilter claimableAmendedC3 hasNoRequiredCaps specificTruthy
  rcases hc : t.target.capabilities with _ | ⟨_ | ⟨c, cs⟩⟩
  · simp [hc]
  · simp [hc]
  · rcases hs : t.target.specific_instance with _ | s
    · simp [hc, hs, List.all_eq_true]
    · by_cases hse : s = ""
      · simp [hc, hs, hse, List.all_eq_true]
      · simp [hc, hs, hse, List.all_eq_true]

/-- Claim C3 (amended): a pending task is claimable iff it declares no
required capabilities (then anyone may claim it, even when a specific
target is named), otherwise — if it names a non-empty
`specific_instance` — exactly when that instance is this instance (the
capability check is bypassed and overridden), and otherwise exactly when
the instance's capability set covers every required capability. -/
theorem getClaimable_C3_amended (ts : TaskState) (instanceId : String)
    (capabilities : List String) (t : Task) :
    t ∈ getClaimableTasks ts instanceId capabilities ↔
      t ∈ pendingTasks ts ∧ claimableAmendedC3 instanceId capabilities t := by
  simp [getClaimableTasks, List.mem_filter, claimFilter_iff]

/-- Witness for C3: a pending task requiring `x` and `y` with no specific
target is claimable by an instance holding both capabilities. -/
theorem getClaimable_C3_witness :
    c3wtask ∈ getClaimableTasks c3wstate ("me") [("x"), ("y")] :=
  (getClaimable_C3_amended c3wstate ("me") [("x"), ("y")] c3wtask).mpr ⟨by decide, by decide⟩

/-- Claim C5: when the file lookup resolves the old id to memory `A`,
`supersede(A, B)` rewrites `A` with status superseded and
`links.superseded_by = B`, and afterwards `A` is indexed under the
superseded status bucket, absent from the active and archived buckets and
absent from `recent` and `high_importance`; when the old id resolves to
no file, `supersede` is a no-op, not an error. -/
theorem markSuperseded_C5 (st : StoreState) (A : Memory) (fname B now : String)
    (hfind : findMemoryFileEntry st.files A.id = some (fname, A)) :
    lookupFile (markSuperseded st A.id B now).files fname = some (supersededVersion A B) ∧
    (supersededVersion A B).status = MemoryStatus.superseded ∧
    ((supersededVersion A B).links.getD {}).superseded_by = some B ∧
    A.id ∈ (markSuperseded st A.id B now).index.by_status.superseded ∧
    A.id ∉ (markSuperseded st A.id B now).index.by_status.active ∧
    A.id ∉ (markSuperseded st A.id B now).index.by_status.archived ∧
    A.id ∉ (markSuperseded st A.id B now).index.recent ∧
    A.id ∉ (markSuperseded st A.id B now).index.high_importance ∧
    (∀ oid, findMemoryFileEntry st.files oid = none → markSuperseded st oid B now = st) := by
  refine ⟨?_, rfl, rfl, ?_, ?_, ?_, ?_, ?_, ?_⟩
  · simp [markSuperseded, hfind, supersededVersion, lookupFile_writeFileEntry]
  · simp [markSuperseded, hfind, saveIndex]
  · simp [markSuperseded, hfind, saveIndex, removeFromIndexArrays, List.mem_filter]
  · simp [markSuperseded, hfind, saveIndex, removeFromIndexArrays, List.mem_filter]
  · simp [markSuperseded, hfind, saveIndex, removeFromIndexArrays, List.mem_filter]
  · simp [markSuperseded, hfind, saveIndex, removeFromIndexArrays, List.mem_filter]
  · intro oid h
    simp [markSuperseded, h]

/-- Witness for C5 on a one-memory store, including the no-op branch for
an unknown id. -/
theorem markSuperseded_C5_witness :
    ("aaaaaaaaaaaa" : String) ∈ (markSuperseded c5store c5mem.id ("bbbbbbbbbbbb")
      ("2025-01-05T00:00:00.000Z")).index.by_status.superseded ∧
    ("aaaaaaaaaaaa" : String) ∉ (markSuperseded c5store c5mem.id ("bbbbbbbbbbbb")
      ("2025-01-05T00:00:00.000Z")).index.recent ∧
    markSuperseded c5store ("zzz") ("bbbbbbbbbbbb") ("2025-01-05T00:00:00.000Z") = c5store := by
  obtain ⟨h1, h2, h3, h4, h5, h6, h7, h8, h9⟩ :=
    markSuperseded_C5 c5store c5mem c5fname ("bbbbbbbbbbbb") ("2025-01-05T00:00:00.000Z")
      (by decide)
  exact ⟨h4, h7, h9 ("zzz") (by decide)⟩

/-- Claim C7: for every query and store, an absent limit and a limit of
zero both return every matching memory (the full un-limited result, not
zero results), while a positive limit `n` returns exactly the first `n`
entries of the newest-first ordering, hence at most `n` memories. -/
theorem query_limit_C7 (st : StoreState) (q : MemoryQuery) (now : String) :
    ((q.limit = none ∨ q.limit = some 0) →
      (queryMemories st q now).1 = (queryMemoriesCore st q now).1) ∧
    (∀ n : Nat, q.limit = some n → 0 < n →
      (queryMemories st q now).1 = ((queryMemoriesCore st q now).1).take n ∧
      ((queryMemories st q now).1).length ≤ n) := by
  constructor
  · rintro (h | h) <;> simp [queryMemories, applyLimit, h]
  · rintro n h hn
    rcases n with _ | m
    · exact absurd hn (by simp)
    · constructor
      · simp [queryMemories, applyLimit, h]
      · simp only [queryMemories, applyLimit, h]
        exact List.length_take_le _ _

/-- Witness for C7 at limit 2 on a concrete store. -/
theorem query_limit_C7_witness :
    (queryMemories c6state c7query ("2025-01-04T00:00:00.000Z")).1 =
      ((queryMemoriesCore c6state c7query ("2025-01-04T00:00:00.000Z")).1).take 2 ∧
    ((queryMemories c6state c7query ("2025-01-04T00:00:00.000Z")).1).length ≤ 2 :=
  (query_limit_C7 c6state c7query ("2025-01-04T00:00:00.000Z")).2 2 rfl (by decide)

/-- Claim C10 (amended): `getMemory(id)` returns null and leaves the store
untouched when no `.yaml` filename contains the id as a substring;
otherwise it takes the first such file (no id-format validation), returns
its record with `access_count` incremented by one and `last_accessed`
updated, and persists that mutation to the file. -/
theorem getMemory_C10_amended (st : StoreState) (id now : String) :
    (findMemoryFileEntry st.files id = none → getMemory st id now = (none, st)) ∧
    (∀ fname m, findMemoryFileEntry st.files id = some (fname, m) →
      getMemory st id now =
        (some (accessedVersion m now),
          { st with files := writeFileEntry st.files fname (accessedVersion m now) }) ∧
      (accessedVersion m now).access_count = m.access_count + 1 ∧
      (accessedVersion m now).last_accessed = some now ∧
      lookupFile ((getMemory st id now).2).files fname = some (accessedVersion m now)) := by
  refine ⟨?_, ?_⟩
  · intro h
    simp [getMemory, h]
  · intro fname m h
    refine ⟨?_, rfl, rfl, ?_⟩
    · simp [getMemory, h, accessedVersion]
    · simp [getMemory, h, accessedVersion, lookupFile_writeFileEntry]

/-- Witness for C10 on a one-memory store, looked up by a proper substring
of its id. -/
theorem getMemory_C10_witness :
    (getMemory c10state ("abc") ("2025-02-02T00:00:00.000Z")).1 =
      some (accessedVersion c10mem ("2025-02-02T00:00:00.000Z")) ∧
    (accessedVersion c10mem ("2025-02-02T00:00:00.000Z")).access_count =
      c10mem.access_count + 1 ∧
    lookupFile ((getMemory c10state ("abc") ("2025-02-02T00:00:00.000Z")).2).files
      ("2025-01-01T00-00-00_fact_abc123def456.yaml") =
      some (accessedVersion c10mem ("2025-02-02T00:00:00.000Z")) := by
  have h := (getMemory_C10_amended c10state ("abc") ("2025-02-02T00:00:00.000Z")).2
    ("2025-01-01T00-00-00_fact_abc123def456.yaml") c10mem (by decide)
  refine ⟨?_, h.2.1, h.2.2.2⟩
  rw [h.1]

/-- Claim C4 (amended): the stored memory's importance equals the input
importance when provided (unclamped, even outside the unit interval) and
defaults to 0.5 when absent; confidence likewise with default 0.8; and
with no supersession links the created record is stored verbatim under
the generated filename. -/
theorem createMemory_C4_amended (st : StoreState) (input : CreateMemoryInput)
    (id timestamp instanceId : String) :
    (createMemory st input id timestamp instanceId).1.importance =
      input.importance.getD (mkRat 5 10) ∧
    (createMemory st input id timestamp instanceId).1.confidence =
      input.confidence.getD (mkRat 8 10) ∧
    (input.links = none →
      lookupFile ((createMemory st input id timestamp instanceId).2).files
        (generateFilename timestamp input.type id) =
        some (createMemory st input id timestamp instanceId).1) := by
  refine ⟨rfl, rfl, ?_⟩
  intro h
  simp [createMemory, h, lookupFile_writeFileEntry]

/-- Witness for C4 (amended) on the out-of-range input. -/
theorem createMemory_C4_witness :
    lookupFile (c4res.2).files ("2025-01-01T00-00-00_fact_aaaabbbbcccc.yaml") =
      some c4res.1 := by
  have h := (createMemory_C4_amended emptyStore c4input ("aaaabbbbcccc")
    ("2025-01-01T00:00:00.000Z") ("inst1")).2.2 rfl
  exact h


/-- Witness for C1: claiming the freshly created pending task succeeds with
`claimed_by` set, and a second claim of the same id raises the
precondition error. -/
theorem claimTask_C1_witness :
    claimTask c1state ("task_c1") ("2025-01-02T00:00:00.000Z") ("me") ("m1") =
      Except.ok (some (claimedVersion c1create.1 ("2025-01-02T00:00:00.000Z") ("me") ("m1")),
        claimedState c1state ("task_c1") c1create.1 ("2025-01-02T00:00:00.000Z") ("me")
          ("m1")) ∧
    (claimedVersion c1create.1 ("2025-01-02T00:00:00.000Z") ("me") ("m1")).claimed_by =
      some ⟨("me"), some ("m1"), ("2025-01-02T00:00:00.000Z")⟩ ∧
    claimTask (claimedState c1state ("task_c1") c1create.1 ("2025-01-02T00:00:00.000Z")
      ("me") ("m1")) ("task_c1") ("2025-01-02T00:00:00.000Z") ("me") ("m1") =
      Except.error (notPendingMsg ("task_c1") TaskStatus.claimed) := by
  have h := (claimTask_C1 c1state ("task_c1") ("2025-01-02T00:00:00.000Z") ("me")
    ("m1")).2.2 c1create.1 (by decide) (by decide) (by decide)
  exact ⟨h.1, h.2.2.1, h.2.2.2⟩

end ClaudeMemory
